import Mathlib

/-
Verification of the parakeet-dictation session lifecycle.

This file embeds the behaviour of src/main.py (the WhisperDictationApp
session controller) and src/bedrock_client.py (the Bedrock response
handling) as executable Lean definitions, and proves or refutes the
specification's claims about them.

External collaborators (the Whisper engine, the Bedrock network call, the
OS selection bridge, the audio device) are parameters of the model: their
observable answers are fields of an environment record, and the side
effects the controller asks of them are recorded as an effect list.
-/

set_option maxRecDepth 4096

namespace Parakeet

/-- Observable side effects the processing pipeline can request: a call to
the enhancement client (bedrock_client.enhance_text), a write through the
Selected-Text Bridge (text_selector.replace_selected_text), or keystroke
injection (insert_text / keyboard_controller.type). -/
inductive Effect where
  | enhanceCall (instruction : String) (selected : String)
  | replaceSelection (t : String)
  | insertText (t : String)
  deriving DecidableEq, Repr

/-- Result of one run of the processing pipeline: the ordered effects it
issued, the final status_item.title it set, and whether it re-raised an
exception to its caller (transcribe_audio re-raises engine failures to
process_recording). -/
structure Outcome where
  effects : List Effect
  status : String
  raised : Bool
  deriving DecidableEq, Repr

/-- Modelled from the spec: the Selected-Text Bridge (text_selection.py is
imported by main.py but is not under src). Per the spec, getSelection
returns a string or empty — modelled by the field selectedText, with the
empty string standing for a falsy (None or empty) answer — and
replaceSelection returns success or failure without raising, so the
controller's exception handler cannot be triggered by the replacement
itself; the replacement is recorded as an Effect. The remaining fields are
the answers of the other external collaborators for this session: whether
bedrock_client.is_available() holds, what enhance_text returns or raises,
and the segment list (or failure) produced by model.transcribe. -/
structure TranscribeEnv where
  selectedText : String
  bedrockAvailable : Bool
  enhanceResult : Except String String
  transcribeResult : Except String (List String)

/-- Shallow embedding of WhisperDictationApp.transcribe_audio
(src/main.py lines 236-302), run on the recorded frame buffer. Frames are
abstract chunk identifiers; the temporary-file plumbing is invisible to
the observable outcome and is omitted. The segment concatenation
`text += segment.text` is String.join; Python truthiness `if text:` and
`if selected_text and ...:` become emptiness tests. -/
def transcribe_audio (frames : List Nat) (env : TranscribeEnv) : Outcome :=
  if frames.isEmpty then
    { effects := [], status := "Status: No audio recorded", raised := false }
  else
    match env.transcribeResult with
    | Except.error _ =>
        { effects := [], status := "Status: Transcription error", raised := true }
    | Except.ok segments =>
        let text := String.join segments
        if text ≠ "" then
          if env.selectedText ≠ "" ∧ env.bedrockAvailable = true then
            match env.enhanceResult with
            | Except.ok enhanced =>
                { effects := [Effect.enhanceCall text env.selectedText,
                              Effect.replaceSelection enhanced],
                  status := "Status: Enhanced: " ++ enhanced.take 30 ++ "...",
                  raised := false }
            | Except.error _ =>
                { effects := [Effect.enhanceCall text env.selectedText,
                              Effect.insertText text],
                  status := "Status: Transcribed: " ++ text.take 30 ++ "...",
                  raised := false }
          else
            { effects := [Effect.insertText text],
              status := "Status: Transcribed: " ++ text.take 30 ++ "...",
              raised := false }
        else
          { effects := [], status := "Status: No speech detected", raised := false }

/-- Whether an effect is a keystroke injection of text. -/
def Effect.isInsert : Effect → Bool
  | Effect.insertText _ => true
  | _ => false

/-- Whether an effect is a call to the enhancement client. -/
def Effect.isEnhance : Effect → Bool
  | Effect.enhanceCall _ _ => true
  | _ => false

/-- Whether the pipeline's outcome injected any text as keystrokes. -/
def injectsRaw (o : Outcome) : Bool := o.effects.any Effect.isInsert

/-- Whether the pipeline's outcome invoked the enhancement client. -/
def callsEnhance (o : Outcome) : Bool := o.effects.any Effect.isEnhance

/-- A Bedrock response content item; the text field may be absent
(a missing key raises KeyError in the Python source). -/
structure ContentItem where
  text : Option String
  deriving DecidableEq, Repr

/-- A Bedrock response body; the content field may be absent. -/
structure BedrockResponse where
  content : Option (List ContentItem)
  deriving DecidableEq, Repr

/-- Python str.strip(): remove leading and trailing whitespace. Written
as an executable recursion over the character list so that concrete
responses evaluate inside the kernel. -/
def pyStrip (s : String) : String :=
  String.mk
    ((((s.data.dropWhile Char.isWhitespace).reverse).dropWhile
        Char.isWhitespace).reverse)

/-- Shallow embedding of the response handling of
BedrockClient.enhance_text (src/bedrock_client.py lines 64-77): if the
content key is present and the content list is non-empty, return the
first item's text stripped of surrounding whitespace; otherwise raise
"No content in Bedrock response". A missing text key raises a KeyError,
which the surrounding handler re-raises. Python str.strip() is
pyStrip. -/
def enhance_text_response (resp : BedrockResponse) : Except String String :=
  match resp.content with
  | none => Except.error ("No content in Bedrock response")
  | some [] => Except.error ("No content in Bedrock response")
  | some (item :: _) =>
      match item.text with
      | none => Except.error ("KeyError: text")
      | some t => Except.ok (pyStrip t)

/-- The generated-text field of a response, in the sense of the spec's
words: the text carried by the response's first content item, when there
is one. This definition follows the spec's vocabulary and exists to be
compared with the source's enhance_text_response. -/
def generatedTextField (resp : BedrockResponse) : Option String :=
  match resp.content with
  | some (item :: _) => item.text
  | _ => none

/-- Observable state of the WhisperDictationApp controller. Fields mirror
the instance attributes of main.py: the recording flag, the frame buffer,
whether self.model is loaded (not None), the armed hotkey flag
is_recording_with_key63, the status_item.title string and the
recording_menu_item title. recording_threads counts live capture threads
(the source keeps a single handle, recording_thread), processing counts
live processing threads (transcribe_thread instances), and typed
accumulates the effects the processing pipelines have issued. -/
structure AppState where
  model_loaded : Bool
  recording : Bool
  is_recording_with_key63 : Bool
  recording_threads : Nat
  processing : Nat
  frames : List Nat
  typed : List Effect
  status : String
  recording_menu_title : String
  deriving DecidableEq, Repr

/-- Shallow embedding of WhisperDictationApp.start_recording (main.py
lines 178-194): if the model is not loaded the start is rejected with a
waiting status and nothing else changes; otherwise the frame buffer is
reset, the recording flag is set, the status updated, and a capture
thread started. -/
def start_recording (s : AppState) : AppState :=
  if s.model_loaded = false then
    { s with status := "Status: Waiting for model to load" }
  else
    { s with frames := [], recording := true,
             status := "Status: Recording...",
             recording_threads := s.recording_threads + 1 }

/-- Shallow embedding of WhisperDictationApp.stop_recording (main.py
lines 196-208): clear the recording flag, join the capture thread
(modelled as the thread count dropping), update the status and start a
processing thread. The fine-grained ordering of the flag clear, the join
and the processing start is analysed separately in the interleaving model
below. -/
def stop_recording (s : AppState) : AppState :=
  { s with recording := false,
           recording_threads := s.recording_threads - 1,
           status := "Status: Transcribing...",
           processing := s.processing + 1 }

/-- Shallow embedding of the on_release handler for the trigger key
(main.py lines 146-157): a release starts a session when neither the
recording flag nor the armed flag is set, stops one when both are set,
and otherwise does nothing. The armed flag is toggled before the call,
exactly as in the source. -/
def on_release (s : AppState) : AppState :=
  if s.recording = false ∧ s.is_recording_with_key63 = false then
    start_recording { s with is_recording_with_key63 := true }
  else if s.recording = true ∧ s.is_recording_with_key63 = true then
    stop_recording { s with is_recording_with_key63 := false }
  else s

/-- Shallow embedding of WhisperDictationApp.toggle_recording (main.py
lines 169-176): the menu item toggles on the recording flag and rewrites
its own title unconditionally afterwards. -/
def toggle_recording (s : AppState) : AppState :=
  if s.recording = false then
    { start_recording s with recording_menu_title := "Stop Recording" }
  else
    { stop_recording s with recording_menu_title := "Start Recording" }

/-- Events the controller reacts to: a release edge of the trigger key, a
click of the recording menu item, the model-loading thread finishing
successfully, the capture thread appending one chunk, and a processing
thread (process_recording wrapping transcribe_audio) running to
completion with the given collaborator answers. -/
inductive Event where
  | keyRelease
  | menuClick
  | modelReady
  | captureChunk (c : Nat)
  | procFinish (env : TranscribeEnv)

/-- One controller step per event. procFinish applies process_recording
(main.py lines 210-218): it runs transcribe_audio on the current frame
buffer, appends the issued effects, and on a re-raised engine failure
overwrites the status with the error status of the handler. -/
def step : Event → AppState → AppState
  | Event.keyRelease, s => on_release s
  | Event.menuClick, s => toggle_recording s
  | Event.modelReady, s => { s with model_loaded := true, status := "Status: Ready" }
  | Event.captureChunk c, s =>
      if s.recording = true then { s with frames := s.frames ++ [c] } else s
  | Event.procFinish env, s =>
      if s.processing = 0 then s
      else
        let o := transcribe_audio s.frames env
        { s with processing := s.processing - 1,
                 typed := s.typed ++ o.effects,
                 status := if o.raised = true then "Status: Error during transcription"
                           else o.status }

/-- The controller state right after __init__ of WhisperDictationApp: no
model yet (it loads on a background thread), nothing recording, the armed
flag clear. -/
def initState : AppState :=
  { model_loaded := false, recording := false, is_recording_with_key63 := false,
    recording_threads := 0, processing := 0, frames := [], typed := [],
    status := "Status: Ready", recording_menu_title := "Start Recording" }

/-- Run the controller over a sequence of events. -/
def run (s : AppState) : List Event → AppState
  | [] => s
  | e :: rest => run (step e s) rest

/-- Number of Sessions currently occupying a slot: a session in its
Recording phase plus every session whose processing pipeline has not yet
reached Idle (the spec models processing as occupying a Session slot). -/
def activeSessions (s : AppState) : Nat :=
  (if s.recording = true then 1 else 0) + s.processing

/-- A controller state is Idle when no session is recording and no
processing pipeline is running. -/
def isIdle (s : AppState) : Prop := s.recording = false ∧ s.processing = 0

/-- Position of the capture thread inside the loop of record_audio
(main.py lines 229-231): about to test the recording flag, inside a
blocking chunk read whose append has not happened yet, or terminated
(the loop exited and the stream was closed). -/
inductive CapState where
  | checking
  | reading
  | done
  deriving DecidableEq, Repr

/-- Joint state of the capture thread and of the listener thread running
stop_recording. pc is the listener's position inside stop_recording
(main.py lines 196-208): 0 before `self.recording = False`, 1 before the
join, 2 before `transcribe_thread.start()`, 3 after the processing thread
has been started. next numbers the chunks the device delivers. -/
structure World where
  recording : Bool
  frames : List Nat
  cap : CapState
  next : Nat
  pc : Nat
  deriving DecidableEq, Repr

/-- The two threads of the stop race: the capture thread running
record_audio's loop and the listener thread running stop_recording. -/
inductive Tid where
  | capThread
  | mainThread
  deriving DecidableEq, Repr

/-- One step of the capture thread (the loop of record_audio, main.py
lines 229-231): at the flag test it either enters a read or exits; a read
appends the delivered chunk and returns to the flag test; after exit it
does nothing. -/
def capStep (w : World) : World :=
  match w.cap with
  | CapState.checking =>
      if w.recording = true then { w with cap := CapState.reading }
      else { w with cap := CapState.done }
  | CapState.reading =>
      { w with frames := w.frames ++ [w.next], next := w.next + 1,
               cap := CapState.checking }
  | CapState.done => w

/-- One step of the listener thread inside stop_recording (main.py lines
196-208): clear the flag, then join — which can only complete once the
capture thread has terminated, so the join step is enabled exactly when
cap is done — then start the processing thread. -/
def mainStep (w : World) : World :=
  match w.pc with
  | 0 => { w with recording := false, pc := 1 }
  | 1 => if w.cap = CapState.done then { w with pc := 2 } else w
  | 2 => { w with pc := 3 }
  | _ => w

/-- Interleaving step: the scheduled thread moves. -/
def wstep : Tid → World → World
  | Tid.capThread, w => capStep w
  | Tid.mainThread, w => mainStep w

/-- Run a schedule of thread interleavings. -/
def wrun (w : World) : List Tid → World
  | [] => w
  | t :: rest => wrun (wstep t w) rest

/-- The world at the moment stop_recording is entered: the session is
recording and the capture thread is live inside its loop. -/
def w0 : World :=
  { recording := true, frames := [], cap := CapState.checking, next := 0, pc := 0 }

/-- Invariant of the stop race: once the listener has passed the flag
clear the recording flag stays false, and once it has passed the join the
capture thread has terminated. -/
def winv (w : World) : Prop :=
  (1 ≤ w.pc → w.recording = false) ∧ (2 ≤ w.pc → w.cap = CapState.done)

/-- The capture loop of record_audio as a function of the successive flag
observations and the chunk each blocking read would deliver: while the
flag reads true the chunk is read and appended, and the first false
observation exits the loop. -/
def capture_loop : List (Bool × Nat) → List Nat
  | [] => []
  | (flag, c) :: rest => if flag = true then c :: capture_loop rest else []

/-- Shallow embedding of record_audio (main.py lines 220-234) as seen by
its thread: the device open may raise — the body has no exception
handler, so an open failure escapes the thread as an error — and
otherwise the capture loop runs to completion. -/
def record_audio (openResult : Except String Unit)
    (reads : List (Bool × Nat)) : Except String (List Nat) :=
  match openResult with
  | Except.error e => Except.error e
  | Except.ok _ => Except.ok (capture_loop reads)

/-- Controller state once the Whisper model has finished loading, with no
session active. -/
def readyState : AppState := { initState with model_loaded := true }

/-- A controller state whose session is recording, armed via the hotkey. -/
def recState : AppState :=
  { readyState with recording := true, is_recording_with_key63 := true,
                    recording_threads := 1 }

/-- A controller state with one processing pipeline running over a
one-chunk frame buffer. -/
def procState : AppState := { readyState with processing := 1, frames := [0] }

/-- Collaborator answers for a session: spoken instruction transcribed,
selection present, Bedrock available and succeeding. -/
def envOk : TranscribeEnv :=
  { selectedText := "hey whats up", bedrockAvailable := true,
    enhanceResult := Except.ok ("Hello, how are you?"),
    transcribeResult := Except.ok [("make it formal")] }

/-- Collaborator answers for a session: selection present, Bedrock
available but its enhance call fails. -/
def envFail : TranscribeEnv :=
  { selectedText := "world", bedrockAvailable := true,
    enhanceResult := Except.error ("boom"),
    transcribeResult := Except.ok [("hello")] }

/-- Collaborator answers identical to envFail except that no text is
selected, so enhancement is never attempted. -/
def envNoSel : TranscribeEnv := { envFail with selectedText := "" }

/-- Collaborator answers mapping the audio to an empty segment
sequence. -/
def envSilent : TranscribeEnv :=
  { selectedText := "", bedrockAvailable := false,
    enhanceResult := Except.error (""), transcribeResult := Except.ok [] }

/-- A concrete stop schedule: the listener clears the flag, the capture
thread observes it and exits, the listener joins and starts the
processing thread. -/
def schedW : List Tid :=
  [Tid.mainThread, Tid.capThread, Tid.mainThread, Tid.mainThread]

theorem winv_step (t : Tid) (w : World) (h : winv w) : winv (wstep t w) := by
  obtain ⟨h1, h2⟩ := h
  obtain ⟨rec, fr, cap, nx, pc⟩ := w
  rcases pc with _ | _ | _ | pc <;> cases t <;> cases cap <;> cases rec <;>
    simp_all [wstep, capStep, mainStep, winv]

theorem winv_wrun (sched : List Tid) (w : World) (h : winv w) : winv (wrun w sched) := by
  induction sched generalizing w with
  | nil => exact h
  | cons t rest ih => exact ih (wstep t w) (winv_step t w h)

theorem wstep_fixed (t : Tid) (w : World) (hpc : 3 ≤ w.pc)
    (hcap : w.cap = CapState.done) : wstep t w = w := by
  obtain ⟨rec, fr, cap, nx, pc⟩ := w
  simp only [World.cap] at hcap
  subst hcap
  cases t with
  | capThread => rfl
  | mainThread =>
    rcases pc with _ | _ | _ | pc
    · simp at hpc
    · simp at hpc
    · simp at hpc
    · rfl

theorem wrun_fixed (sched : List Tid) (w : World) (hpc : 3 ≤ w.pc)
    (hcap : w.cap = CapState.done) : wrun w sched = w := by
  induction sched with
  | nil => rfl
  | cons t rest ih =>
    show wrun (wstep t w) rest = w
    rw [wstep_fixed t w hpc hcap]
    exact ih

theorem wrun_append (w : World) (s1 s2 : List Tid) :
    wrun w (s1 ++ s2) = wrun (wrun w s1) s2 := by
  induction s1 generalizing w with
  | nil => rfl
  | cons t rest ih => exact ih (wstep t w)

theorem capture_loop_takeWhile (reads : List (Bool × Nat)) :
    capture_loop reads = (reads.takeWhile Prod.fst).map Prod.snd := by
  induction reads with
  | nil => rfl
  | cons p rest ih =>
    obtain ⟨flag, c⟩ := p
    cases flag with
    | true => simp [capture_loop, List.takeWhile_cons, ih]
    | false => simp [capture_loop, List.takeWhile_cons]

/-- Claim C1, counterexample: the claim that a start edge arriving while
the state is not Idle — in particular while the post-recording processing
pipeline is still running — is a no-op is false of the code: from a
loaded-model Idle state, three hotkey releases (start, stop, start) leave
one session recording while the previous session's processing pipeline is
still running, so two Sessions occupy slots at the same time. -/
theorem C1_counterexample :
    ¬ ∀ tr : List Event, activeSessions (run readyState tr) ≤ 1 := fun h =>
  absurd (h [Event.keyRelease, Event.keyRelease, Event.keyRelease]) (by decide)

/-- Claim C1, amended: the mutual-exclusion guard protects only the
Recording phase. While a session is recording, a hotkey release either
stops it — handing it to exactly one new processing pipeline — or is a
no-op, so a start never fires with the recording flag set; and while no
session is recording, a hotkey release never performs the stop action, so
no processing pipeline is spawned by a stop edge without an active
recording. (A start edge arriving while only the processing pipeline is
running does, however, begin a new session.) -/
theorem C1_amended_recording_exclusive (s : AppState) :
    (s.recording = true →
      on_release s = s ∨
        ((on_release s).recording = false ∧
          (on_release s).processing = s.processing + 1)) ∧
    (s.recording = false → (on_release s).processing = s.processing) := by
  constructor
  · intro hr
    cases h63 : s.is_recording_with_key63 with
    | true =>
      right
      simp [on_release, hr, h63, stop_recording]
    | false =>
      left
      simp [on_release, hr, h63]
  · intro hr
    cases h63 : s.is_recording_with_key63 with
    | true => simp [on_release, hr, h63]
    | false =>
      have hrel : on_release s =
          start_recording { s with is_recording_with_key63 := true } := by
        simp [on_release, hr, h63]
      rw [hrel]
      unfold start_recording
      split <;> rfl

/-- Claim C1 witness: the amended exclusivity instantiated at a recording
state and at the initial state. -/
theorem C1_amended_witness :
    (on_release recState = recState ∨
      ((on_release recState).recording = false ∧
        (on_release recState).processing = recState.processing + 1)) ∧
    (on_release initState).processing = initState.processing :=
  ⟨(C1_amended_recording_exclusive recState).1 rfl,
   (C1_amended_recording_exclusive initState).2 rfl⟩

/-- Claim C10: a hotkey release that triggers a start attempt rejected
because the model is not loaded leaves the armed flag
is_recording_with_key63 true while the recording flag stays false; and in
every state with the armed flag set and the recording flag clear, a
hotkey release matches neither the start branch nor the stop branch, so
as long as recording stays false no session can ever again be started or
stopped via the hotkey. -/
theorem C10_armed_flag_deadlock (s : AppState) (hm : s.model_loaded = false)
    (h63 : s.is_recording_with_key63 = false) (hr : s.recording = false) :
    ((on_release s).is_recording_with_key63 = true ∧
      (on_release s).recording = false) ∧
    ∀ t : AppState, t.is_recording_with_key63 = true → t.recording = false →
      on_release t = t := by
  constructor
  · simp [on_release, hr, h63, start_recording, hm]
  · intro t ht63 htr
    simp [on_release, ht63, htr]

/-- Claim C10 witness: from the initial (model not yet loaded) state, the
rejected start arms the flag, and a further release is then a no-op. -/
theorem C10_witness :
    ((on_release initState).is_recording_with_key63 = true ∧
      (on_release initState).recording = false) ∧
    on_release (on_release initState) = on_release initState :=
  ⟨(C10_armed_flag_deadlock initState rfl rfl rfl).1,
   (C10_armed_flag_deadlock initState rfl rfl rfl).2 (on_release initState)
     (C10_armed_flag_deadlock initState rfl rfl rfl).1.1
     (C10_armed_flag_deadlock initState rfl rfl rfl).1.2⟩

theorem frames_isEmpty_false (frames : List Nat) (hf : frames ≠ []) :
    frames.isEmpty = false := by
  cases frames with
  | nil => exact absurd rfl hf
  | cons a l => rfl

/-- Claim C2: with a non-empty transcript, a non-empty selection, an
available enhancement client and a successful enhance call, the pipeline
calls the client with the transcript as the instruction and replaces the
selection with the client's output, and no keystroke injection of the raw
transcript (or of anything else) occurs on this path. -/
theorem C2_enhancement_replaces_selection (frames : List Nat)
    (env : TranscribeEnv) (segs : List String) (out : String)
    (hf : frames ≠ []) (hs : env.transcribeResult = Except.ok segs)
    (ht : String.join segs ≠ "") (hsel : env.selectedText ≠ "")
    (hav : env.bedrockAvailable = true) (hen : env.enhanceResult = Except.ok out) :
    transcribe_audio frames env =
      { effects := [Effect.enhanceCall (String.join segs) env.selectedText,
                    Effect.replaceSelection out],
        status := "Status: Enhanced: " ++ out.take 30 ++ "...",
        raised := false } ∧
    injectsRaw (transcribe_audio frames env) = false := by
  have heq : transcribe_audio frames env =
      { effects := [Effect.enhanceCall (String.join segs) env.selectedText,
                    Effect.replaceSelection out],
        status := "Status: Enhanced: " ++ out.take 30 ++ "...",
        raised := false } := by
    simp [transcribe_audio, frames_isEmpty_false frames hf, hs, ht, hsel, hav, hen]
  refine ⟨heq, ?_⟩
  rw [heq]
  rfl

/-- Claim C2 witness: the end-to-end enhancement scenario of the spec,
with instruction "make it formal" over the selection "hey whats up". -/
theorem C2_witness :
    transcribe_audio [0] envOk =
      { effects := [Effect.enhanceCall (String.join [("make it formal")])
                      envOk.selectedText,
                    Effect.replaceSelection ("Hello, how are you?")],
        status := "Status: Enhanced: " ++ ("Hello, how are you?").take 30 ++ "...",
        raised := false } ∧
    injectsRaw (transcribe_audio [0] envOk) = false :=
  C2_enhancement_replaces_selection [0] envOk [("make it formal")]
    ("Hello, how are you?") (by decide) rfl (by decide) (by decide) rfl rfl

/-- Claim C3, counterexample to "the failure is surfaced in status text":
when the enhance call fails, the final status is the plain transcription
status — character for character the same status that a failure-free run
with no selection produces — so the status text carries no indication of
the failure; the failure is only logged. -/
theorem C3_counterexample :
    (transcribe_audio [0] envFail).status = "Status: Transcribed: hello..." ∧
    (transcribe_audio [0] envFail).status = (transcribe_audio [0] envNoSel).status := by
  exact ⟨by decide, by decide⟩

/-- Claim C3, amended: with a non-empty transcript, a non-empty selection
and an available client whose enhance call fails, the failure is caught
rather than re-raised: the raw transcript is injected as keystrokes as a
fallback, so it is not dropped and the process does not crash, and the
status is set to the plain transcription status — identical to that of
the no-selection path, the failure itself being surfaced only in the
log. -/
theorem C3_enhance_failure_falls_back (frames : List Nat)
    (env : TranscribeEnv) (segs : List String) (e : String)
    (hf : frames ≠ []) (hs : env.transcribeResult = Except.ok segs)
    (ht : String.join segs ≠ "") (hsel : env.selectedText ≠ "")
    (hav : env.bedrockAvailable = true)
    (hen : env.enhanceResult = Except.error e) :
    transcribe_audio frames env =
      { effects := [Effect.enhanceCall (String.join segs) env.selectedText,
                    Effect.insertText (String.join segs)],
        status := "Status: Transcribed: " ++ (String.join segs).take 30 ++ "...",
        raised := false } := by
  simp [transcribe_audio, frames_isEmpty_false frames hf, hs, ht, hsel, hav, hen]

/-- Claim C3 witness: the failure scenario at a concrete transcript and
selection. -/
theorem C3_witness :
    transcribe_audio [0] envFail =
      { effects := [Effect.enhanceCall (String.join [("hello")])
                      envFail.selectedText,
                    Effect.insertText (String.join [("hello")])],
        status := "Status: Transcribed: " ++ (String.join [("hello")]).take 30 ++ "...",
        raised := false } :=
  C3_enhance_failure_falls_back [0] envFail [("hello")] ("boom")
    (by decide) rfl (by decide) (by decide) rfl rfl

/-- Claim C4: with a non-empty transcript and either no selected text or
an unavailable enhancement client, the raw transcript is injected as
keystrokes and the enhancement client is never invoked. -/
theorem C4_plain_insertion (frames : List Nat) (env : TranscribeEnv)
    (segs : List String)
    (hf : frames ≠ []) (hs : env.transcribeResult = Except.ok segs)
    (ht : String.join segs ≠ "")
    (hor : env.selectedText = "" ∨ env.bedrockAvailable = false) :
    transcribe_audio frames env =
      { effects := [Effect.insertText (String.join segs)],
        status := "Status: Transcribed: " ++ (String.join segs).take 30 ++ "...",
        raised := false } ∧
    callsEnhance (transcribe_audio frames env) = false := by
  have hcond : ¬(env.selectedText ≠ "" ∧ env.bedrockAvailable = true) := by
    rcases hor with h | h
    · intro hc
      exact hc.1 h
    · intro hc
      rw [h] at hc
      exact absurd hc.2 (by simp)
  have heq : transcribe_audio frames env =
      { effects := [Effect.insertText (String.join segs)],
        status := "Status: Transcribed: " ++ (String.join segs).take 30 ++ "...",
        raised := false } := by
    simp [transcribe_audio, frames_isEmpty_false frames hf, hs, ht, hcond]
  refine ⟨heq, ?_⟩
  rw [heq]
  rfl

/-- Claim C4 witness: the plain-insertion path at a concrete transcript
with no selection. -/
theorem C4_witness :
    transcribe_audio [0] envNoSel =
      { effects := [Effect.insertText (String.join [("hello")])],
        status := "Status: Transcribed: " ++ (String.join [("hello")]).take 30 ++ "...",
        raised := false } ∧
    callsEnhance (transcribe_audio [0] envNoSel) = false :=
  C4_plain_insertion [0] envNoSel [("hello")] (by decide) rfl (by decide) (Or.inl rfl)

/-- Claim C5, counterexample: the empty audio buffer — which the engine
maps to the empty segment sequence — does not end with status "No speech
detected": the controller returns before invoking the engine and reports
"No audio recorded" instead. -/
theorem C5_counterexample :
    envSilent.transcribeResult = Except.ok [] ∧
    (transcribe_audio [] envSilent).status = "Status: No audio recorded" ∧
    (transcribe_audio [] envSilent).status ≠ "Status: No speech detected" := by
  refine ⟨rfl, rfl, ?_⟩
  decide

/-- Claim C5, amended: for every non-empty audio buffer that the engine
maps to an empty segment sequence, the completing processing pipeline
returns the controller to Idle with status "No speech detected" and
issues neither a text injection nor an enhancement call; the empty buffer
also returns to Idle with no effects, but with status "No audio recorded"
since the engine is never invoked on it. -/
theorem C5_no_speech_idle (s : AppState) (env : TranscribeEnv)
    (hp : s.processing = 1) (hr : s.recording = false) (hf : s.frames ≠ [])
    (ht : env.transcribeResult = Except.ok []) :
    isIdle (step (Event.procFinish env) s) ∧
    (step (Event.procFinish env) s).status = "Status: No speech detected" ∧
    (step (Event.procFinish env) s).typed = s.typed := by
  have hfe : s.frames.isEmpty = false := frames_isEmpty_false s.frames hf
  have hj : String.join [] = "" := rfl
  simp [step, hp, transcribe_audio, hfe, ht, hj, isIdle, hr]

/-- Claim C5 witness: a processing state over a one-chunk buffer whose
transcription comes back empty ends Idle with the no-speech status and no
effects. -/
theorem C5_witness :
    isIdle (step (Event.procFinish envSilent) procState) ∧
    (step (Event.procFinish envSilent) procState).status = "Status: No speech detected" ∧
    (step (Event.procFinish envSilent) procState).typed = procState.typed :=
  C5_no_speech_idle procState envSilent rfl rfl (by decide) rfl

/-- Claim C6: a start request issued while the model is not yet loaded is
rejected, surfacing the model-not-ready status, and the rejection leaves
the controller state unchanged: the recording flag stays false, the frame
buffer is untouched, no capture thread is started and no processing
begins. -/
theorem C6_model_not_ready (s : AppState) (hm : s.model_loaded = false)
    (hr : s.recording = false) :
    (start_recording s).recording = false ∧
    (start_recording s).frames = s.frames ∧
    (start_recording s).recording_threads = s.recording_threads ∧
    (start_recording s).processing = s.processing ∧
    (start_recording s).status = "Status: Waiting for model to load" := by
  simp [start_recording, hm, hr]

/-- Claim C6 witness: the rejected start at the initial state. -/
theorem C6_witness :
    (start_recording initState).recording = false ∧
    (start_recording initState).frames = initState.frames ∧
    (start_recording initState).recording_threads = initState.recording_threads ∧
    (start_recording initState).processing = initState.processing ∧
    (start_recording initState).status = "Status: Waiting for model to load" :=
  C6_model_not_ready initState rfl rfl

/-- Claim C7: in the interleaving of stop_recording against the capture
loop, whenever the processing thread has been started the recording flag
is already cleared and the capture thread has terminated — the join
precedes the processing start; from any such point no further
interleaving ever changes the frame buffer, so the buffer is complete and
never appended to concurrently with processing; and the capture loop
appends exactly the chunks read before its first false observation of the
recording flag, re-checking the flag after every chunk read and exiting
once it is cleared. -/
theorem C7_join_before_processing :
    (∀ sched : List Tid, 3 ≤ (wrun w0 sched).pc →
      (wrun w0 sched).cap = CapState.done ∧ (wrun w0 sched).recording = false) ∧
    (∀ sched more : List Tid, 3 ≤ (wrun w0 sched).pc →
      (wrun w0 (sched ++ more)).frames = (wrun w0 sched).frames) ∧
    (∀ reads : List (Bool × Nat),
      capture_loop reads = (reads.takeWhile Prod.fst).map Prod.snd) := by
  have hinv : ∀ sched : List Tid, winv (wrun w0 sched) := fun sched =>
    winv_wrun sched w0 ⟨fun h => by simp [w0] at h, fun h => by simp [w0] at h⟩
  refine ⟨?_, ?_, capture_loop_takeWhile⟩
  · intro sched hpc
    exact ⟨(hinv sched).2 (by omega), (hinv sched).1 (by omega)⟩
  · intro sched more hpc
    rw [wrun_append]
    exact congrArg World.frames
      (wrun_fixed more (wrun w0 sched) hpc ((hinv sched).2 (by omega)))

/-- Claim C7 witness: a concrete stop schedule reaches the processing
start with the capture thread terminated and the flag cleared, two
further capture steps leave the buffer unchanged, and a concrete read
trace stops at its first false flag observation. -/
theorem C7_witness :
    ((wrun w0 schedW).cap = CapState.done ∧ (wrun w0 schedW).recording = false) ∧
    (wrun w0 (schedW ++ [Tid.capThread, Tid.capThread])).frames = (wrun w0 schedW).frames ∧
    capture_loop [(true, 0), (false, 1)] =
      (([(true, 0), (false, 1)] : List (Bool × Nat)).takeWhile Prod.fst).map Prod.snd :=
  ⟨C7_join_before_processing.1 schedW (by decide),
   C7_join_before_processing.2.1 schedW [Tid.capThread, Tid.capThread] (by decide),
   C7_join_before_processing.2.2 [(true, 0), (false, 1)]⟩

/-- Claim C8, evaluating the code at the failing input: when the device
open raises, record_audio propagates the error out of the capture thread
— its body has no exception handler — while the controller state produced
by the preceding successful start still has the recording flag set and
the plain recording status. The start transition therefore has not failed
cleanly and no user-visible error status is surfaced, although the spec
requires both; only the process survives. -/
theorem C8_device_failure_unsurfaced :
    record_audio (Except.error ("could not open device")) [] =
      Except.error ("could not open device") ∧
    (start_recording readyState).recording = true ∧
    (start_recording readyState).status = "Status: Recording..." :=
  ⟨rfl, rfl, rfl⟩

/-- Claim C9, counterexample: a response whose generated-text field is
present but empty makes the enhance operation succeed with the empty
string, whereas the claim requires the operation to fail with an error
when that field is absent or empty. -/
theorem C9_counterexample :
    generatedTextField { content := some [{ text := some ("") }] } = some ("") ∧
    enhance_text_response { content := some [{ text := some ("") }] } =
      Except.ok ("") :=
  ⟨rfl, rfl⟩

/-- Claim C9, amended: the enhance operation fails with an error when the
response's content field is absent or the content list is empty, and when
the first content item lacks a text field; whenever the content list is
non-empty and its first item carries a text string — even the empty
string — the operation succeeds and returns that string with surrounding
whitespace stripped. -/
theorem C9_response_characterisation (resp : BedrockResponse) :
    ((resp.content = none ∨ resp.content = some []) →
      enhance_text_response resp = Except.error ("No content in Bedrock response")) ∧
    (∀ t rest, resp.content = some ({ text := some t } :: rest) →
      enhance_text_response resp = Except.ok (pyStrip t)) ∧
    (∀ rest, resp.content = some ({ text := none } :: rest) →
      enhance_text_response resp = Except.error ("KeyError: text")) := by
  refine ⟨?_, ?_, ?_⟩
  · rintro (h | h) <;> simp [enhance_text_response, h]
  · intro t rest h
    simp [enhance_text_response, h]
  · intro rest h
    simp [enhance_text_response, h]

/-- Claim C9 witness: the characterisation at a missing content field, at
a whitespace-padded text and at a missing text field. -/
theorem C9_witness :
    enhance_text_response { content := none } =
      Except.error ("No content in Bedrock response") ∧
    enhance_text_response { content := some [{ text := some (" hi ") }] } =
      Except.ok (pyStrip (" hi ")) ∧
    enhance_text_response { content := some [{ text := none }] } =
      Except.error ("KeyError: text") :=
  ⟨(C9_response_characterisation { content := none }).1 (Or.inl rfl),
   (C9_response_characterisation { content := some [{ text := some (" hi ") }] }).2.1
     (" hi ") [] rfl,
   (C9_response_characterisation { content := some [{ text := none }] }).2.2 [] rfl⟩

end Parakeet
